import Mathlib

/-!
Shallow embedding of the session/authentication subsystem of the repository
(auth service, OTP service, session-authenticating middleware), together with
theorems settling the specification claims about it.

Conventions of the embedding:
* The relational store is a `DBState` of lists of rows; `findOne` is
  `List.find?` (first match wins, mirroring the ORM's single-row lookup) and
  a row `save()` rewrites every stored row carrying the saved row's primary key.
* Timestamps (`Date`) are `Nat` milliseconds; `new Date()` is an explicit
  `now` argument threaded into each operation.
* bcrypt hashing is modelled by an injective tagging function; `compare`
  checks the tag, exactly as the code only ever compares a submitted password
  against a stored hash.
* A JWT is a `Token`: either a payload signed by the server's secret
  (carrying its claims and issue time) or an unverifiable blob; `verify`
  recovers the claims while the validity window is open and fails otherwise.
* Thrown `HttpException`s become `Except` errors; a JS `TypeError` from
  dereferencing a `null` query result and a failure of the external mailer
  are separate `AppError` constructors, since `catch` blocks treat them
  uniformly but they are distinct observables.
* Sequelize transactions: an operation that wraps its writes in a transaction
  returns the original state when it ends in `rollback`.
-/

/-- A thrown `HttpException(success, status, message)` (detail list unused by
this subsystem). -/
structure HttpException where
  success : Bool
  status : Nat
  message : String
deriving Repr, DecidableEq

/-- Errors an auth operation can end in: a thrown `HttpException`, a JS
`TypeError` from dereferencing a `null` query result, or a failure of the
external mail collaborator. -/
inductive AppError
  | http (e : HttpException)
  | nullDeref (what : String)
  | mailFailure
deriving Repr, DecidableEq

/-- Equality of `Except` results is decidable componentwise. -/
instance {ε α : Type} [DecidableEq ε] [DecidableEq α] : DecidableEq (Except ε α) := fun a b =>
  match a, b with
  | .error e₁, .error e₂ =>
    if h : e₁ = e₂ then .isTrue (congrArg Except.error h)
    else .isFalse (fun hc => h (Except.error.inj hc))
  | .error _, .ok _ => .isFalse (fun hc => Except.noConfusion hc)
  | .ok _, .error _ => .isFalse (fun hc => Except.noConfusion hc)
  | .ok a₁, .ok a₂ =>
    if h : a₁ = a₂ then .isTrue (congrArg Except.ok h)
    else .isFalse (fun hc => h (Except.ok.inj hc))

/-- A stored `users` row (fields the subsystem touches). -/
structure UserRec where
  pk : Nat
  uuid : String
  email : String
  password : String
  full_name : String
  email_verified_at : Option Nat
deriving Repr, DecidableEq

/-- A stored `users_sessions` row. -/
structure SessionRec where
  pk : Nat
  uuid : String
  user_id : Nat
  useragent : String
  ip_address : String
  status : String
deriving Repr, DecidableEq

/-- A stored `otps` row. -/
structure OTPRec where
  pk : Nat
  user_id : Nat
  key : String
  type : String
  status : String
  expired_at : Nat
deriving Repr, DecidableEq

/-- A stored `roles` row. -/
structure RoleRec where
  pk : Nat
  name : String
deriving Repr, DecidableEq

/-- A stored `users_roles` row (many-to-many edge between users and roles). -/
structure UserRoleRec where
  user_id : Nat
  role_id : Nat
deriving Repr, DecidableEq

/-- The relational store: one list of rows per table, plus the next value of
the shared auto-increment counter used when a row is created. -/
structure DBState where
  users : List UserRec
  sessions : List SessionRec
  otps : List OTPRec
  roles : List RoleRec
  usersRoles : List UserRoleRec
  nextPk : Nat
deriving Repr, DecidableEq

/-- Model of `bcrypt.hash(password, 10)`: an injective tag. The subsystem
never inverts a hash, it only stores them and compares against them. -/
def bcryptHash (password : String) : String := "bcrypt$" ++ password

/-- Model of `bcrypt.compare(password, stored)`. -/
def bcryptCompare (password stored : String) : Bool := stored == bcryptHash password

/-- `DataStoredInToken`: the claims embedded in an access token. -/
structure DataStoredInToken where
  uid : String
  sid : String
deriving Repr, DecidableEq

/-- Token validity window used by `createAccessToken` (seconds). -/
def expiresIn : Nat := 60 * 60 * 60

/-- A bearer token: either signed with the server's `SECRET_KEY` (so `verify`
can recover its claims) with its issue time, or an unverifiable blob. -/
inductive Token
  | signed (claims : DataStoredInToken) (issued_at : Nat)
  | invalid
deriving Repr, DecidableEq

/-- Model of `jsonwebtoken.verify(token, SECRET_KEY)`: recovers the claims of
a server-signed token while its validity window is open; otherwise throws
(modelled as `none`). -/
def jwtVerify (t : Token) (now : Nat) : Option DataStoredInToken :=
  match t with
  | .signed claims issued_at => if now < issued_at + expiresIn then some claims else none
  | .invalid => none

/-- `TokenPayload` returned by `createAccessToken`. -/
structure TokenPayload where
  expiresIn : Nat
  token : Token
deriving Repr, DecidableEq

/-- `createAccessToken(user, userSession)`: signs `{uid, sid}` with the
validity window `expiresIn`. -/
def createAccessToken (user_uuid session_uuid : String) (now : Nat) : TokenPayload :=
  { expiresIn := expiresIn, token := .signed ⟨user_uuid, session_uuid⟩ now }

/-- The cookie string built by `createCookie` carries the token and its
Max-Age; the token is kept structured rather than serialized. -/
structure Cookie where
  token : Token
  maxAge : Nat
deriving Repr, DecidableEq

/-- `createCookie(TokenPayload)`. -/
def createCookie (p : TokenPayload) : Cookie := { token := p.token, maxAge := p.expiresIn }

/-- The client information `getUserAgent` derives from a request. -/
structure UserAgent where
  source : String
  ip_address : String
deriving Repr, DecidableEq

/-- `CreateUserDto`. -/
structure CreateUserDto where
  email : String
  password : String
  full_name : String
deriving Repr, DecidableEq

namespace OTPService

/-- `OTPService.createOTP(data, validInMinutes, transaction)`: stores a fresh
AVAILABLE OTP expiring `validInMinutes` minutes from now. The randomly drawn
8-digit key is an explicit argument (oracle for `Math.random`). Returns the
created row and the next state. -/
def createOTP (st : DBState) (user_id : Nat) (type : String) (key : String)
    (validInMinutes : Nat) (now : Nat) : OTPRec × DBState :=
  let otp : OTPRec :=
    { pk := st.nextPk, user_id := user_id, key := key, type := type,
      status := "AVAILABLE", expired_at := now + validInMinutes * 60000 }
  (otp, { st with otps := st.otps ++ [otp], nextPk := st.nextPk + 1 })

/-- `save()` on an OTP row: rewrite the stored rows carrying its primary key. -/
def saveOTP (l : List OTPRec) (o : OTPRec) : List OTPRec :=
  l.map (fun x => if x.pk == o.pk then o else x)

/-- The `where` clause of `OTPService.findOTP`: `{ user_id, key, status:
"AVAILABLE" }`. Note the `type` field of the argument is not part of it. -/
def otpMatches (user_id : Nat) (key : String) (x : OTPRec) : Bool :=
  x.user_id == user_id && x.key == key && x.status == "AVAILABLE"

/-- `OTPService.findOTP({user_id, key, type})`: looks up the first AVAILABLE
OTP with this user and key (the `type` argument is unused by the query); if
none, throws 400; if expired, saves it as EXPIRED and throws 400; otherwise
saves it as USED and returns `true`. -/
def findOTP (st : DBState) (user_id : Nat) (key : String) (type : String)
    (now : Nat) : Except HttpException Bool × DBState :=
  match st.otps.find? (otpMatches user_id key) with
  | none => (.error ⟨false, 400, "OTP is not valid"⟩, st)
  | some otp =>
    if otp.expired_at < now then
      (.error ⟨false, 400, "OTP is not valid"⟩,
        { st with otps := saveOTP st.otps { otp with status := "EXPIRED" } })
    else
      (.ok true, { st with otps := saveOTP st.otps { otp with status := "USED" } })

end OTPService

namespace AuthService

/-- The shape loaded by `DB.Users.findOne({ attributes: ["pk"], where: { uuid } })`
in `verifyEmail`: only the `pk` column is selected, so every other attribute
of the returned model instance is `undefined` (modelled as `none`). -/
structure UserPkOnly where
  pk : Nat
  email : Option String
deriving Repr, DecidableEq

/-- Projection of a stored user row through `attributes: ["pk"]`. -/
def selectPkOnly (u : UserRec) : UserPkOnly := { pk := u.pk, email := none }

/-- `save()` on a user row after setting `email_verified_at`. -/
def saveUserVerified (l : List UserRec) (pk : Nat) (now : Nat) : List UserRec :=
  l.map (fun u => if u.pk == pk then { u with email_verified_at := some now } else u)

/-- `AuthService.verifyEmail(user_uuid, otp)`: resolves the user (selecting
only `pk`), consumes the OTP via `OTPService.findOTP` (propagating its thrown
errors and its EXPIRED side effect), on success sets `email_verified_at` to
now and returns `{ email: user.email }` — where `user.email` is the email
attribute of the pk-only loaded instance. -/
def verifyEmail (st : DBState) (user_uuid otp : String) (now : Nat) :
    Except HttpException (Option String) × DBState :=
  match st.users.find? (fun u => u.uuid == user_uuid) with
  | none => (.error ⟨false, 400, "Invalid UUID"⟩, st)
  | some stored =>
    let user := selectPkOnly stored
    match OTPService.findOTP st user.pk otp "EMAIL_VERIFICATION" now with
    | (.error e, st') => (.error e, st')
    | (.ok _, st') =>
      (.ok user.email, { st' with users := saveUserVerified st'.users user.pk now })

/-- `AuthService.createUserSession({pk, useragent, ip_address})`: inserts a
fresh ACTIVE session row. The store generates the row's uuid (UUIDv4 column
default); freshness is modelled by deriving it from the auto-increment
counter. -/
def createUserSession (st : DBState) (pk : Nat) (useragent ip_address : String) :
    SessionRec × DBState :=
  let session : SessionRec :=
    { pk := st.nextPk, uuid := "uuid-session-" ++ toString st.nextPk,
      user_id := pk, useragent := useragent, ip_address := ip_address,
      status := "ACTIVE" }
  (session, { st with sessions := st.sessions ++ [session], nextPk := st.nextPk + 1 })

/-- `AuthService.login(userData, userAgent)`: resolves the user by email
(selecting `pk, uuid, password, email_verified_at`), compares the password,
requires a verified email, creates an ACTIVE session and returns the cookie
and access token. -/
def login (st : DBState) (email password : String) (userAgent : UserAgent)
    (now : Nat) : Except HttpException (Cookie × Token) × DBState :=
  match st.users.find? (fun u => u.email == email) with
  | none => (.error ⟨false, 409, "This email " ++ email ++ " was not found"⟩, st)
  | some findUser =>
    if !(bcryptCompare password findUser.password) then
      (.error ⟨false, 409, "Password not matching"⟩, st)
    else
      match findUser.email_verified_at with
      | none => (.error ⟨false, 400, "Email is not verified"⟩, st)
      | some _ =>
        let (sessionData, st') :=
          createUserSession st findUser.pk userAgent.source userAgent.ip_address
        let payload := createAccessToken findUser.uuid sessionData.uuid now
        (.ok (createCookie payload, payload.token), st')

/-- `AuthService.checkSessionActive(session_id)`: the first session row with
this uuid and status ACTIVE, or null. (The eager-loaded `user` association is
resolved separately where it is consumed.) -/
def checkSessionActive (st : DBState) (session_id : String) : Option SessionRec :=
  st.sessions.find? (fun s => s.uuid == session_id && s.status == "ACTIVE")

/-- `save()` on a session row: rewrite the stored rows carrying its primary
key. -/
def saveSession (l : List SessionRec) (s : SessionRec) : List SessionRec :=
  l.map (fun x => if x.pk == s.pk then s else x)

/-- `AuthService.logoutSessionActive({uid, sid})`: finds the first ACTIVE
session with uuid `sid` — the `uid` argument is not part of the `where`
clause — sets its status to LOGOUT if found, and returns `true` either way. -/
def logoutSessionActive (st : DBState) (uid sid : String) : Bool × DBState :=
  match checkSessionActive st sid with
  | some userSession =>
    (true, { st with sessions := saveSession st.sessions { userSession with status := "LOGOUT" } })
  | none => (true, st)

/-- `AuthService.logout(userData, userSessionId)`: re-resolves the caller by
primary key (409 if gone), then delegates to `logoutSessionActive` with the
caller's uuid and the session id. -/
def logout (st : DBState) (userData_pk : Nat) (userSessionId : String) :
    Except HttpException Bool × DBState :=
  match st.users.find? (fun u => u.pk == userData_pk) with
  | none => (.error ⟨false, 409, "User doesn't exist"⟩, st)
  | some findUser =>
    let (res, st') := logoutSessionActive st findUser.uuid userSessionId
    (.ok res, st')

/-- `AuthService.getUserRoles(user_id)`: the user's role edges, each paired
with its eager-loaded `role` row (null when the referenced role is absent). -/
def getUserRoles (st : DBState) (user_id : Nat) : List (UserRoleRec × Option RoleRec) :=
  (st.usersRoles.filter (fun ur => ur.user_id == user_id)).map
    (fun ur => (ur, st.roles.find? (fun r => r.pk == ur.role_id)))

/-- `AuthService.getRoleId(name)`: looks up the role and dereferences
`role.pk` — a TypeError (modelled as `none`) when no such role exists. -/
def getRoleId (st : DBState) (name : String) : Option Nat :=
  (st.roles.find? (fun r => r.name == name)).map (fun r => r.pk)

/-- `AuthService.asignUserRole(user_id, role_id, transaction)`: inserts the
role edge. -/
def asignUserRole (st : DBState) (user_id role_id : Nat) : DBState :=
  { st with usersRoles := st.usersRoles ++ [{ user_id := user_id, role_id := role_id }] }

/-- What `AuthService.signup` returns on success. -/
structure SignupResult where
  uuid : String
  email : String
deriving Repr, DecidableEq

/-- The body of `AuthService.signup(userData)` inside its transaction:
duplicate-email check (409), password hashing, user creation, default USER
role assignment (TypeError when the USER role row is missing), OTP creation
and mail dispatch (`mailOk` is the oracle for the external mailer; `otpKey`
for the random 8-digit code). -/
def signupBody (st : DBState) (userData : CreateUserDto) (otpKey : String)
    (mailOk : Bool) (now : Nat) : Except AppError SignupResult × DBState :=
  match st.users.find? (fun u => u.email == userData.email) with
  | some _ =>
    (.error (.http ⟨false, 409, "This email " ++ userData.email ++ " already exists"⟩), st)
  | none =>
    let createUser : UserRec :=
      { pk := st.nextPk, uuid := "uuid-user-" ++ toString st.nextPk,
        email := userData.email, password := bcryptHash userData.password,
        full_name := userData.full_name, email_verified_at := none }
    let st1 : DBState :=
      { st with users := st.users ++ [createUser], nextPk := st.nextPk + 1 }
    match getRoleId st1 "USER" with
    | none => (.error (.nullDeref "role.pk"), st1)
    | some roleId =>
      let st2 := asignUserRole st1 createUser.pk roleId
      let (_otp, st3) := OTPService.createOTP st2 createUser.pk "EMAIL_VERIFICATION" otpKey 10 now
      if mailOk then
        (.ok { uuid := createUser.uuid, email := createUser.email }, st3)
      else
        (.error .mailFailure, st3)

/-- `AuthService.signup(userData)`: runs `signupBody` in a transaction —
commit on success, rollback (original state) and rethrow on any error. -/
def signup (st : DBState) (userData : CreateUserDto) (otpKey : String)
    (mailOk : Bool) (now : Nat) : Except AppError SignupResult × DBState :=
  match signupBody st userData otpKey mailOk now with
  | (.ok r, st') => (.ok r, st')
  | (.error e, _) => (.error e, st)

/-- The body of `AuthService.resendVerifyEmail(user_uuid)` inside its
transaction: user must resolve and be unverified, then a fresh OTP is created
and mailed. -/
def resendVerifyEmailBody (st : DBState) (user_uuid : String) (otpKey : String)
    (mailOk : Bool) (now : Nat) : Except AppError String × DBState :=
  match st.users.find? (fun u => u.uuid == user_uuid) with
  | none => (.error (.http ⟨false, 400, "Invalid UUID"⟩), st)
  | some user =>
    match user.email_verified_at with
    | some _ => (.error (.http ⟨false, 400, "Email already verified"⟩), st)
    | none =>
      let (_otp, st1) := OTPService.createOTP st user.pk "EMAIL_VERIFICATION" otpKey 10 now
      if mailOk then (.ok user.email, st1) else (.error .mailFailure, st1)

/-- `AuthService.resendVerifyEmail(user_uuid)`: transactional wrapper —
commit on success, rollback and rethrow on any error. -/
def resendVerifyEmail (st : DBState) (user_uuid : String) (otpKey : String)
    (mailOk : Bool) (now : Nat) : Except AppError String × DBState :=
  match resendVerifyEmailBody st user_uuid otpKey mailOk now with
  | (.ok r, st') => (.ok r, st')
  | (.error e, _) => (.error e, st)

end AuthService

/-- The context `AuthMiddleware` attaches to the request on success. -/
structure AuthContext where
  session_id : String
  user : UserRec
  user_roles : List String
deriving Repr, DecidableEq

/-- The outcome of the session-authenticating middleware: `next()` with an
attached context, or `next(HttpException)`. -/
inductive AuthResult
  | authorized (ctx : AuthContext)
  | rejected (e : HttpException)
deriving Repr, DecidableEq

/-- `userRoles.map(userRole => userRole.role.name)`: dereferencing a null
eager-loaded `role` throws, so the whole mapping is `none` when any edge
dangles. -/
def roleNames (l : List (UserRoleRec × Option RoleRec)) : Option (List String) :=
  l.mapM (fun p => p.2.map (fun r => r.name))

/-- `AuthMiddleware(req)`: extract the token (cookie before header — the
extracted result is the `Option Token`), verify it, load the ACTIVE session
and its owner, require token uid == owner uuid, require the request's user
agent == the session's stored user agent, and attach `{session_id, user,
role names}`. Every thrown error (failed verify, null dereference) is caught
and surfaced as 401. -/
def AuthMiddleware (st : DBState) (authorization : Option Token)
    (userAgentSource : String) (now : Nat) : AuthResult :=
  match authorization with
  | none => .rejected ⟨false, 401, "Invalid Token #66"⟩
  | some tok =>
    match jwtVerify tok now with
    | none => .rejected ⟨false, 401, "Invalid Token #70"⟩
    | some claims =>
      match AuthService.checkSessionActive st claims.sid with
      | none =>
        -- `userSession.user.pk` on a null row throws; caught by the catch-all
        .rejected ⟨false, 401, "Invalid Token #70"⟩
      | some userSession =>
        match st.users.find? (fun u => u.pk == userSession.user_id) with
        | none =>
          -- eager-loaded `user` association is null; dereference caught
          .rejected ⟨false, 401, "Invalid Token #70"⟩
        | some user =>
          if user.uuid == claims.uid then
            if userAgentSource == userSession.useragent then
              match roleNames (AuthService.getUserRoles st user.pk) with
              | some names =>
                .authorized { session_id := claims.sid, user := user, user_roles := names }
              | none =>
                -- `userRole.role.name` on a null role throws; caught
                .rejected ⟨false, 401, "Invalid Token #70"⟩
            else .rejected ⟨false, 401, "Invalid Token #60"⟩
          else .rejected ⟨false, 401, "Invalid Token #63"⟩

/-- `AuthorizedRoles(roles)`: pass when the attached role names intersect the
required set, else 403. -/
def AuthorizedRoles (roles : List String) (user_roles : List String) : Option HttpException :=
  if roles.any (fun requiredRole => user_roles.contains requiredRole) then none
  else some ⟨false, 403, "Unauthorized Access #37"⟩

/-! ## General lemmas about row updates -/

/-- A row of `saveOTP l o` that carries `o`'s primary key is `o` itself. -/
theorem OTPService.eq_of_mem_saveOTP {l : List OTPRec} {o x : OTPRec}
    (hx : x ∈ OTPService.saveOTP l o) (hpk : x.pk = o.pk) : x = o := by
  rw [OTPService.saveOTP, List.mem_map] at hx
  obtain ⟨y, _, rfl⟩ := hx
  by_cases h : y.pk == o.pk
  · simp [h]
  · simp only [h, if_neg] at hpk ⊢
    simp only [beq_iff_eq] at h
    exact absurd hpk h

/-- After saving a no-longer-AVAILABLE status onto the only row matching
`{user_id, key, AVAILABLE}`, the lookup of `findOTP` comes up empty. -/
theorem OTPService.find?_saveOTP_eq_none {l : List OTPRec} {o : OTPRec}
    {user_id : Nat} {key : String}
    (hstat : o.status ≠ "AVAILABLE")
    (huniq : ∀ x ∈ l, OTPService.otpMatches user_id key x = true → x.pk = o.pk) :
    (OTPService.saveOTP l o).find? (OTPService.otpMatches user_id key) = none := by
  rw [List.find?_eq_none]
  intro x hx hmatch
  have hpk : x.pk = o.pk := by
    rw [OTPService.saveOTP, List.mem_map] at hx
    obtain ⟨y, hy, rfl⟩ := hx
    by_cases h : y.pk == o.pk
    · simp [h]
    · simp only [h, if_neg]
      exact huniq y hy (by simpa [h] using hmatch)
  have hx' : x = o := OTPService.eq_of_mem_saveOTP hx hpk
  subst hx'
  simp only [OTPService.otpMatches, Bool.and_eq_true, beq_iff_eq] at hmatch
  exact hstat hmatch.2

/-- A row of `saveSession l s` that carries `s`'s primary key is `s` itself. -/
theorem AuthService.eq_of_mem_saveSession {l : List SessionRec} {s x : SessionRec}
    (hx : x ∈ AuthService.saveSession l s) (hpk : x.pk = s.pk) : x = s := by
  rw [AuthService.saveSession, List.mem_map] at hx
  obtain ⟨y, _, rfl⟩ := hx
  by_cases h : y.pk == s.pk
  · simp [h]
  · simp only [h, if_neg] at hpk ⊢
    simp only [beq_iff_eq] at h
    exact absurd hpk h

/-- A row of `saveUserVerified l pk now` that carries `pk` has its
`email_verified_at` set to `now`. -/
theorem AuthService.mem_saveUserVerified {l : List UserRec} {pk now : Nat} {x : UserRec}
    (hx : x ∈ AuthService.saveUserVerified l pk now) (hpk : x.pk = pk) :
    x.email_verified_at = some now := by
  rw [AuthService.saveUserVerified, List.mem_map] at hx
  obtain ⟨y, _, rfl⟩ := hx
  by_cases h : y.pk == pk
  · simp [h]
  · simp only [h, if_neg] at hpk ⊢
    simp only [beq_iff_eq] at h
    exact absurd hpk h

/-! ## C4 — login on an unknown email -/

/-- C4 counterexample: the claim says login on an unknown email fails with a
NotFound (404) error; on an empty store the code fails with status 409, not
404. -/
theorem login_unknown_email_counterexample :
    (AuthService.login ⟨[], [], [], [], [], 1⟩ "a@x.com" "pw" ⟨"ua", "ip"⟩ 0).1 =
      .error ⟨false, 409, "This email a@x.com was not found"⟩
    ∧ (409 : Nat) ≠ 404 := by
  exact ⟨rfl, by decide⟩

/-- C4 (amended): for every login whose email resolves to no user, login
fails with a 409 Conflict whose message states the email was not found, and
the store is unchanged. -/
theorem login_unknown_email_conflict (st : DBState) (email password : String)
    (ua : UserAgent) (now : Nat)
    (h : st.users.find? (fun u => u.email == email) = none) :
    AuthService.login st email password ua now =
      (.error ⟨false, 409, "This email " ++ email ++ " was not found"⟩, st) := by
  simp [AuthService.login, h]

/-- Witness for C4's amended theorem at a concrete empty store. -/
theorem login_unknown_email_conflict_witness :
    AuthService.login ⟨[], [], [], [], [], 1⟩ "a@x.com" "pw" ⟨"ua", "ip"⟩ 0 =
      (.error ⟨false, 409, "This email a@x.com was not found"⟩, ⟨[], [], [], [], [], 1⟩) :=
  login_unknown_email_conflict ⟨[], [], [], [], [], 1⟩ "a@x.com" "pw" ⟨"ua", "ip"⟩ 0 rfl

/-! ## C5 — login on an unverified account -/

/-- Concrete unverified user and store for C5. -/
def uC5 : UserRec :=
  { pk := 1, uuid := "u-c5", email := "c5@x.com", password := bcryptHash "right",
    full_name := "C Five", email_verified_at := none }

/-- Store holding only `uC5`. -/
def stC5 : DBState := { users := [uC5], sessions := [], otps := [], roles := [], usersRoles := [], nextPk := 2 }

/-- C5 counterexample: the claim says login on an unverified account fails
with BadRequest regardless of the password; with a wrong password the code
fails with 409 "Password not matching", not 400. -/
theorem login_unverified_wrong_password_counterexample :
    (AuthService.login stC5 "c5@x.com" "wrong" ⟨"ua", "ip"⟩ 0).1 =
      .error ⟨false, 409, "Password not matching"⟩
    ∧ (409 : Nat) ≠ 400 := by
  exact ⟨rfl, by decide⟩

/-- C5 (amended): for every login resolving to a user whose
`email_verified_at` is unset: if the submitted password matches the stored
hash the call fails with 400 "Email is not verified"; if it does not match,
the password check fires first and the call fails with 409 "Password not
matching". Either way the store is unchanged. -/
theorem login_unverified_email_errors (st : DBState) (email password : String)
    (ua : UserAgent) (now : Nat) (u : UserRec)
    (hu : st.users.find? (fun x => x.email == email) = some u)
    (hv : u.email_verified_at = none) :
    (bcryptCompare password u.password = true →
      AuthService.login st email password ua now =
        (.error ⟨false, 400, "Email is not verified"⟩, st))
    ∧ (bcryptCompare password u.password = false →
      AuthService.login st email password ua now =
        (.error ⟨false, 409, "Password not matching"⟩, st)) := by
  constructor <;> intro hc <;> simp [AuthService.login, hu, hc, hv]

/-- Witness for C5's amended theorem: correct password, unverified email. -/
theorem login_unverified_email_errors_witness :
    AuthService.login stC5 "c5@x.com" "right" ⟨"ua", "ip"⟩ 0 =
      (.error ⟨false, 400, "Email is not verified"⟩, stC5) :=
  (login_unverified_email_errors stC5 "c5@x.com" "right" ⟨"ua", "ip"⟩ 0 uC5
    (by decide) (by decide)).1 (by decide)

/-! ## C6 — signup conflict on duplicate email, rollback on any failure -/

/-- C6: signup on an email that already resolves to a user fails with 409
Conflict and leaves the store unchanged (zero new records); and whenever
signup ends in any error, the transaction is rolled back — the resulting
store is the original one — with that error surfaced. -/
theorem signup_duplicate_conflict_and_rollback (st : DBState)
    (userData : CreateUserDto) (otpKey : String) (mailOk : Bool) (now : Nat) :
    (∀ u, st.users.find? (fun x => x.email == userData.email) = some u →
      AuthService.signup st userData otpKey mailOk now =
        (.error (.http ⟨false, 409, "This email " ++ userData.email ++ " already exists"⟩), st))
    ∧ (∀ e, (AuthService.signup st userData otpKey mailOk now).1 = .error e →
      (AuthService.signup st userData otpKey mailOk now).2 = st) := by
  constructor
  · intro u hu
    simp [AuthService.signup, AuthService.signupBody, hu]
  · intro e he
    unfold AuthService.signup at he ⊢
    rcases h : AuthService.signupBody st userData otpKey mailOk now with ⟨r, st'⟩
    cases r <;> simp [h] at he ⊢

/-- Registered user for the C6 witness. -/
def uC6 : UserRec :=
  { pk := 1, uuid := "u-c6", email := "c6@x.com", password := bcryptHash "pw",
    full_name := "C Six", email_verified_at := none }

/-- Concrete store for C6: one registered user. -/
def stC6 : DBState :=
  { users := [uC6], sessions := [], otps := [], roles := [⟨1, "USER"⟩],
    usersRoles := [], nextPk := 2 }

/-- Witness for C6 at a duplicate email. -/
theorem signup_duplicate_conflict_witness :
    AuthService.signup stC6 ⟨"c6@x.com", "pw2", "C Six Again"⟩ "12345678" true 0 =
      (.error (.http ⟨false, 409, "This email c6@x.com already exists"⟩), stC6) :=
  (signup_duplicate_conflict_and_rollback stC6 ⟨"c6@x.com", "pw2", "C Six Again"⟩
    "12345678" true 0).1 uC6 (by decide)

/-! ## C7 — an OTP is consumable exactly once; expired OTPs are marked -/

/-- C7: when the first AVAILABLE OTP row matching `{user_id, key}` is the
only matching one: if it is unexpired, the first `findOTP` call returns
`true` and transitions it to USED, and a second call with the same code (at
any later instant) fails with 400 and changes nothing; if its expiry
timestamp has passed, the call fails with 400 and transitions the row to
EXPIRED. -/
theorem otp_consumed_exactly_once (st : DBState) (user_id : Nat)
    (key t : String) (now now₂ : Nat) (o : OTPRec)
    (hfind : st.otps.find? (OTPService.otpMatches user_id key) = some o)
    (huniq : ∀ x ∈ st.otps, OTPService.otpMatches user_id key x = true → x.pk = o.pk) :
    (¬ o.expired_at < now →
      (OTPService.findOTP st user_id key t now).1 = .ok true
      ∧ (∀ x ∈ (OTPService.findOTP st user_id key t now).2.otps,
          x.pk = o.pk → x.status = "USED")
      ∧ OTPService.findOTP (OTPService.findOTP st user_id key t now).2 user_id key t now₂ =
          (.error ⟨false, 400, "OTP is not valid"⟩, (OTPService.findOTP st user_id key t now).2))
    ∧ (o.expired_at < now →
      (OTPService.findOTP st user_id key t now).1 = .error ⟨false, 400, "OTP is not valid"⟩
      ∧ ∀ x ∈ (OTPService.findOTP st user_id key t now).2.otps,
          x.pk = o.pk → x.status = "EXPIRED") := by
  constructor
  · intro hexp
    have hrun : OTPService.findOTP st user_id key t now =
        (.ok true, { st with otps := OTPService.saveOTP st.otps { o with status := "USED" } }) := by
      simp [OTPService.findOTP, hfind, hexp]
    refine ⟨by rw [hrun], ?_, ?_⟩
    · intro x hx hpk
      rw [hrun] at hx
      have := OTPService.eq_of_mem_saveOTP (l := st.otps) (o := { o with status := "USED" }) hx hpk
      rw [this]
    · have hnone : (OTPService.saveOTP st.otps { o with status := "USED" }).find?
          (OTPService.otpMatches user_id key) = none :=
        OTPService.find?_saveOTP_eq_none (by simp) huniq
      rw [hrun]
      simp [OTPService.findOTP, hnone]
  · intro hexp
    have hrun : OTPService.findOTP st user_id key t now =
        (.error ⟨false, 400, "OTP is not valid"⟩,
          { st with otps := OTPService.saveOTP st.otps { o with status := "EXPIRED" } }) := by
      simp [OTPService.findOTP, hfind, hexp]
    refine ⟨by rw [hrun], ?_⟩
    intro x hx hpk
    rw [hrun] at hx
    have := OTPService.eq_of_mem_saveOTP (l := st.otps) (o := { o with status := "EXPIRED" }) hx hpk
    rw [this]

/-- AVAILABLE OTP row for the C7 witness, expiring at 600000. -/
def oC7 : OTPRec :=
  { pk := 7, user_id := 3, key := "24681357", type := "EMAIL_VERIFICATION",
    status := "AVAILABLE", expired_at := 600000 }

/-- Concrete store for C7: only `oC7`. -/
def stC7 : DBState :=
  { users := [], sessions := [], otps := [oC7], roles := [], usersRoles := [], nextPk := 8 }

/-- Witness for C7: first consumption at time 1000 succeeds, the second
fails. -/
theorem otp_consumed_exactly_once_witness :
    (OTPService.findOTP stC7 3 "24681357" "EMAIL_VERIFICATION" 1000).1 = .ok true
    ∧ (∀ x ∈ (OTPService.findOTP stC7 3 "24681357" "EMAIL_VERIFICATION" 1000).2.otps,
        x.pk = 7 → x.status = "USED")
    ∧ OTPService.findOTP (OTPService.findOTP stC7 3 "24681357" "EMAIL_VERIFICATION" 1000).2
        3 "24681357" "EMAIL_VERIFICATION" 2000 =
        (.error ⟨false, 400, "OTP is not valid"⟩,
          (OTPService.findOTP stC7 3 "24681357" "EMAIL_VERIFICATION" 1000).2) :=
  (otp_consumed_exactly_once stC7 3 "24681357" "EMAIL_VERIFICATION" 1000 2000 oC7
    (by decide) (by decide)).1 (by decide)

/-! ## Lemmas about `logoutSessionActive` -/

/-- `logoutSessionActive` reports success in both of its branches. -/
theorem AuthService.logoutSessionActive_fst (st : DBState) (uid sid : String) :
    (AuthService.logoutSessionActive st uid sid).1 = true := by
  unfold AuthService.logoutSessionActive
  cases AuthService.checkSessionActive st sid <;> rfl

/-- `logoutSessionActive` does not touch the users table. -/
theorem AuthService.logoutSessionActive_users (st : DBState) (uid sid : String) :
    (AuthService.logoutSessionActive st uid sid).2.users = st.users := by
  unfold AuthService.logoutSessionActive
  cases AuthService.checkSessionActive st sid <;> rfl

/-- When session uuids determine the primary key, no ACTIVE session with the
targeted uuid survives `logoutSessionActive`. -/
theorem AuthService.no_active_after_logoutSessionActive (st : DBState) (uid sid : String)
    (huniq : ∀ s₁ ∈ st.sessions, ∀ s₂ ∈ st.sessions, s₁.uuid = s₂.uuid → s₁.pk = s₂.pk) :
    AuthService.checkSessionActive (AuthService.logoutSessionActive st uid sid).2 sid = none := by
  unfold AuthService.logoutSessionActive
  cases hfind : AuthService.checkSessionActive st sid with
  | none => exact hfind
  | some s₀ =>
    have hfind' : st.sessions.find? (fun s => s.uuid == sid && s.status == "ACTIVE") = some s₀ :=
      hfind
    have hmem : s₀ ∈ st.sessions := List.mem_of_find?_eq_some hfind'
    have hp := List.find?_some hfind'
    simp only [Bool.and_eq_true, beq_iff_eq] at hp
    simp only
    unfold AuthService.checkSessionActive
    rw [List.find?_eq_none]
    intro x hx hmatch
    simp only [Bool.and_eq_true, beq_iff_eq] at hmatch
    simp only [AuthService.saveSession, List.mem_map] at hx
    obtain ⟨y, hy, hxy⟩ := hx
    by_cases h : y.pk == s₀.pk
    · rw [if_pos h] at hxy
      rw [← hxy] at hmatch
      simp at hmatch
    · rw [if_neg h] at hxy
      subst hxy
      have : y.pk = s₀.pk := huniq y hy s₀ hmem (hmatch.1.trans hp.1.symm)
      simp [this] at h

/-! ## C2 — a token is rejected after its session is logged out -/

/-- C2: once the session a token references has gone through
`logoutSessionActive` (session uuids determining the primary key), the
Session Authenticator rejects every request presenting a token embedding
that session id with 401 — the Authorized outcome is unreachable. -/
theorem token_rejected_after_logout (st : DBState) (uid sid uid' ua : String)
    (iat now : Nat)
    (huniq : ∀ s₁ ∈ st.sessions, ∀ s₂ ∈ st.sessions, s₁.uuid = s₂.uuid → s₁.pk = s₂.pk) :
    AuthMiddleware (AuthService.logoutSessionActive st uid sid).2
      (some (.signed ⟨uid', sid⟩ iat)) ua now =
      .rejected ⟨false, 401, "Invalid Token #70"⟩ := by
  have hnone := AuthService.no_active_after_logoutSessionActive st uid sid huniq
  by_cases h : now < iat + expiresIn
  · simp [AuthMiddleware, jwtVerify, h, hnone]
  · simp [AuthMiddleware, jwtVerify, h]

/-- ACTIVE session for the C2 witness. -/
def sessC2 : SessionRec :=
  { pk := 1, uuid := "s-c2", user_id := 1, useragent := "ua-c2", ip_address := "ip",
    status := "ACTIVE" }

/-- Concrete store for C2: one ACTIVE session. -/
def stC2 : DBState :=
  { users := [], sessions := [sessC2], otps := [], roles := [], usersRoles := [], nextPk := 2 }

/-- Witness for C2 at a concrete logged-out session. -/
theorem token_rejected_after_logout_witness :
    AuthMiddleware (AuthService.logoutSessionActive stC2 "u-c2" "s-c2").2
      (some (.signed ⟨"u-c2", "s-c2"⟩ 0)) "ua-c2" 5 =
      .rejected ⟨false, 401, "Invalid Token #70"⟩ :=
  token_rejected_after_logout stC2 "u-c2" "s-c2" "u-c2" "ua-c2" 0 5 (by decide)

/-! ## C3 — the fingerprint gate of the Session Authenticator -/

/-- C3: for a verifiable unexpired token whose session is ACTIVE and whose
embedded user identity matches the session owner: a request fingerprint
differing from the session's stored one is rejected with 401, and an equal
fingerprint is authorized with `{session id, user record, role names}`
attached. -/
theorem auth_fingerprint_gate (st : DBState) (sid uid ua : String)
    (iat now : Nat) (sess : SessionRec) (user : UserRec) (names : List String)
    (htok : now < iat + expiresIn)
    (hsess : AuthService.checkSessionActive st sid = some sess)
    (huser : st.users.find? (fun u => u.pk == sess.user_id) = some user)
    (hid : user.uuid = uid)
    (hroles : roleNames (AuthService.getUserRoles st user.pk) = some names) :
    (ua ≠ sess.useragent →
      AuthMiddleware st (some (.signed ⟨uid, sid⟩ iat)) ua now =
        .rejected ⟨false, 401, "Invalid Token #60"⟩)
    ∧ (ua = sess.useragent →
      AuthMiddleware st (some (.signed ⟨uid, sid⟩ iat)) ua now =
        .authorized ⟨sid, user, names⟩) := by
  constructor <;> intro hua <;>
    simp [AuthMiddleware, jwtVerify, htok, hsess, huser, hid, hroles, hua]

/-- Owner user for the C3 witness. -/
def uC3 : UserRec :=
  { pk := 1, uuid := "u-c3", email := "c3@x.com", password := bcryptHash "pw",
    full_name := "C Three", email_verified_at := some 0 }

/-- ACTIVE session of `uC3` with stored fingerprint "ua-c3". -/
def sessC3 : SessionRec :=
  { pk := 2, uuid := "s-c3", user_id := 1, useragent := "ua-c3", ip_address := "ip",
    status := "ACTIVE" }

/-- Concrete store for C3: `uC3` with the USER role and session `sessC3`. -/
def stC3 : DBState :=
  { users := [uC3], sessions := [sessC3], otps := [], roles := [⟨1, "USER"⟩],
    usersRoles := [⟨1, 1⟩], nextPk := 3 }

/-- Witness for C3: matching fingerprint is authorized with the user, the
session id and the role names attached. -/
theorem auth_fingerprint_gate_witness :
    AuthMiddleware stC3 (some (.signed ⟨"u-c3", "s-c3"⟩ 0)) "ua-c3" 5 =
      .authorized ⟨"s-c3", uC3, ["USER"]⟩ :=
  (auth_fingerprint_gate stC3 "s-c3" "u-c3" "ua-c3" 0 5 sessC3 uC3 ["USER"]
    (by decide) (by decide) (by decide) (by decide) (by decide)).2 rfl

/-! ## C8 — logout is an idempotent success -/

/-- C8: for an existing user and any session id (session uuids determining
the primary key), logout reports success whether or not an ACTIVE session
with that id exists, and repeating the call returns the same success while
leaving the state reached by the first call unchanged. -/
theorem logout_idempotent (st : DBState) (userData_pk : Nat) (sid : String) (u : UserRec)
    (hu : st.users.find? (fun x => x.pk == userData_pk) = some u)
    (huniq : ∀ s₁ ∈ st.sessions, ∀ s₂ ∈ st.sessions, s₁.uuid = s₂.uuid → s₁.pk = s₂.pk) :
    (AuthService.logout st userData_pk sid).1 = .ok true
    ∧ AuthService.logout (AuthService.logout st userData_pk sid).2 userData_pk sid =
      (.ok true, (AuthService.logout st userData_pk sid).2) := by
  rcases hl : AuthService.logoutSessionActive st u.uuid sid with ⟨b1, st1⟩
  have hfst : b1 = true := by
    have h := AuthService.logoutSessionActive_fst st u.uuid sid
    rw [hl] at h; exact h
  have husers : st1.users = st.users := by
    have h := AuthService.logoutSessionActive_users st u.uuid sid
    rw [hl] at h; exact h
  have hnone : AuthService.checkSessionActive st1 sid = none := by
    have h := AuthService.no_active_after_logoutSessionActive st u.uuid sid huniq
    rw [hl] at h; exact h
  subst hfst
  have hrun : AuthService.logout st userData_pk sid = (.ok true, st1) := by
    simp [AuthService.logout, hu, hl]
  have hu2 : st1.users.find? (fun x => x.pk == userData_pk) = some u := by
    rw [husers]; exact hu
  have hlsa2 : AuthService.logoutSessionActive st1 u.uuid sid = (true, st1) := by
    unfold AuthService.logoutSessionActive
    rw [hnone]
  refine ⟨by rw [hrun], ?_⟩
  rw [hrun]
  simp [AuthService.logout, hu2, hlsa2]

/-- Existing caller for the C8 witness. -/
def uC8 : UserRec :=
  { pk := 1, uuid := "u-c8", email := "c8@x.com", password := bcryptHash "pw",
    full_name := "C Eight", email_verified_at := some 0 }

/-- ACTIVE session of `uC8`. -/
def sessC8 : SessionRec :=
  { pk := 2, uuid := "s-c8", user_id := 1, useragent := "ua", ip_address := "ip",
    status := "ACTIVE" }

/-- Concrete store for C8. -/
def stC8 : DBState :=
  { users := [uC8], sessions := [sessC8], otps := [], roles := [], usersRoles := [], nextPk := 3 }

/-- Witness for C8 at a concrete user and ACTIVE session. -/
theorem logout_idempotent_witness :
    (AuthService.logout stC8 1 "s-c8").1 = .ok true
    ∧ AuthService.logout (AuthService.logout stC8 1 "s-c8").2 1 "s-c8" =
      (.ok true, (AuthService.logout stC8 1 "s-c8").2) :=
  logout_idempotent stC8 1 "s-c8" uC8 (by decide) (by decide)

/-! ## C10 — logout does not check session ownership -/

/-- C10: the session transition of logout ignores the caller's identity: the
`uid` handed to `logoutSessionActive` does not influence its outcome, any
ACTIVE session whose uuid matches is transitioned to LOGOUT regardless of its
owner, and `logout` behaves identically for any two existing callers. -/
theorem logout_ignores_session_ownership (st : DBState) (uid₁ uid₂ sid : String) :
    AuthService.logoutSessionActive st uid₁ sid = AuthService.logoutSessionActive st uid₂ sid
    ∧ (∀ s, AuthService.checkSessionActive st sid = some s →
        (AuthService.logoutSessionActive st uid₁ sid).1 = true
        ∧ ∀ x ∈ (AuthService.logoutSessionActive st uid₁ sid).2.sessions,
            x.pk = s.pk → x.status = "LOGOUT")
    ∧ (∀ pk₁ pk₂ u₁ u₂, st.users.find? (fun x => x.pk == pk₁) = some u₁ →
        st.users.find? (fun x => x.pk == pk₂) = some u₂ →
        AuthService.logout st pk₁ sid = AuthService.logout st pk₂ sid) := by
  refine ⟨rfl, ?_, ?_⟩
  · intro s hs
    refine ⟨AuthService.logoutSessionActive_fst st uid₁ sid, ?_⟩
    intro x hx hpk
    unfold AuthService.logoutSessionActive at hx
    rw [hs] at hx
    simp only at hx
    have hx' : x = { s with status := "LOGOUT" } :=
      AuthService.eq_of_mem_saveSession hx hpk
    rw [hx']
  · intro pk₁ pk₂ u₁ u₂ h₁ h₂
    simp [AuthService.logout, h₁, h₂]
    exact ⟨rfl, rfl⟩

/-- Caller for the C10 witness (does not own the session). -/
def uC10a : UserRec :=
  { pk := 1, uuid := "u-c10a", email := "c10a@x.com", password := bcryptHash "pw",
    full_name := "C Ten A", email_verified_at := some 0 }

/-- Owner of the C10 session. -/
def uC10b : UserRec :=
  { pk := 2, uuid := "u-c10b", email := "c10b@x.com", password := bcryptHash "pw",
    full_name := "C Ten B", email_verified_at := some 0 }

/-- ACTIVE session owned by `uC10b`. -/
def sessC10 : SessionRec :=
  { pk := 3, uuid := "s-c10", user_id := 2, useragent := "ua", ip_address := "ip",
    status := "ACTIVE" }

/-- Concrete store for C10: two users, one session owned by the second. -/
def stC10 : DBState :=
  { users := [uC10a, uC10b], sessions := [sessC10], otps := [], usersRoles := [],
    roles := [], nextPk := 4 }

/-- Witness for C10: a caller who does not own the ACTIVE session still
transitions it to LOGOUT. -/
theorem logout_ignores_session_ownership_witness :
    (AuthService.logoutSessionActive stC10 "u-c10a" "s-c10").1 = true
    ∧ ∀ x ∈ (AuthService.logoutSessionActive stC10 "u-c10a" "s-c10").2.sessions,
        x.pk = sessC10.pk → x.status = "LOGOUT" :=
  (logout_ignores_session_ownership stC10 "u-c10a" "u-c10b" "s-c10").2.1 sessC10 (by decide)

/-! ## Lemmas about `findOTP` and `verifyEmail` -/

/-- `findOTP` does not touch the users table. -/
theorem OTPService.findOTP_users (st : DBState) (user_id : Nat) (key t : String) (now : Nat) :
    (OTPService.findOTP st user_id key t now).2.users = st.users := by
  unfold OTPService.findOTP
  cases st.otps.find? (OTPService.otpMatches user_id key) with
  | none => rfl
  | some o => by_cases h : o.expired_at < now <;> simp [h]

/-! ## C1 — what verifyEmail matches and returns -/

/-- User for the C1 counterexample. -/
def uC1 : UserRec :=
  { pk := 1, uuid := "u-c1", email := "c1@x.com", password := bcryptHash "pw",
    full_name := "C One", email_verified_at := none }

/-- AVAILABLE OTP of `uC1` whose purpose tag is not EMAIL_VERIFICATION. -/
def oC1 : OTPRec :=
  { pk := 2, user_id := 1, key := "11111111", type := "FORGET_PASSWORD",
    status := "AVAILABLE", expired_at := 600000 }

/-- Concrete store for C1. -/
def stC1 : DBState :=
  { users := [uC1], sessions := [], otps := [oC1], roles := [], usersRoles := [], nextPk := 3 }

/-- C1 counterexample: no AVAILABLE OTP matching
`{user, code, EMAIL_VERIFICATION}` exists, so per the claim verifyEmail must
fail with BadRequest; instead the code accepts the differently-tagged OTP,
and the email it returns is undefined rather than the user's address. -/
theorem verifyEmail_claim_counterexample :
    stC1.otps.find? (fun o => o.user_id == 1 && o.key == "11111111"
        && o.status == "AVAILABLE" && o.type == "EMAIL_VERIFICATION") = none
    ∧ (AuthService.verifyEmail stC1 "u-c1" "11111111" 500).1 = .ok none
    ∧ (AuthService.verifyEmail stC1 "u-c1" "11111111" 500).1 ≠
        .error ⟨false, 400, "OTP is not valid"⟩
    ∧ (AuthService.verifyEmail stC1 "u-c1" "11111111" 500).1 ≠ .ok (some uC1.email) := by
  refine ⟨by decide, by decide, by decide, by decide⟩

/-- C1 (amended): for a resolvable user, verifyEmail matches an AVAILABLE OTP
on `{user, code}` only (the purpose tag is not part of the lookup): it fails
with 400 when no such OTP exists, and on an unexpired match it returns
`{email}` with an undefined email value (only the user's pk column is
selected), marks the OTP USED and sets the user's `email_verified_at` to
now. -/
theorem verifyEmail_amended (st : DBState) (user_uuid code : String) (now : Nat) (u : UserRec)
    (hu : st.users.find? (fun x => x.uuid == user_uuid) = some u) :
    (st.otps.find? (OTPService.otpMatches u.pk code) = none →
      AuthService.verifyEmail st user_uuid code now =
        (.error ⟨false, 400, "OTP is not valid"⟩, st))
    ∧ (∀ o, st.otps.find? (OTPService.otpMatches u.pk code) = some o →
        ¬ o.expired_at < now →
        (AuthService.verifyEmail st user_uuid code now).1 = .ok none
        ∧ (∀ x ∈ (AuthService.verifyEmail st user_uuid code now).2.otps,
            x.pk = o.pk → x.status = "USED")
        ∧ (∀ x ∈ (AuthService.verifyEmail st user_uuid code now).2.users,
            x.pk = u.pk → x.email_verified_at = some now)) := by
  constructor
  · intro hnone
    simp [AuthService.verifyEmail, hu, AuthService.selectPkOnly, OTPService.findOTP, hnone]
  · intro o ho hexp
    have hrun : AuthService.verifyEmail st user_uuid code now =
        (.ok none,
          { st with
              otps := OTPService.saveOTP st.otps { o with status := "USED" },
              users := AuthService.saveUserVerified st.users u.pk now }) := by
      simp [AuthService.verifyEmail, hu, AuthService.selectPkOnly, OTPService.findOTP, ho, hexp]
    refine ⟨by rw [hrun], ?_, ?_⟩
    · intro x hx hpk
      rw [hrun] at hx
      have hx' := OTPService.eq_of_mem_saveOTP (l := st.otps)
        (o := { o with status := "USED" }) hx hpk
      rw [hx']
    · intro x hx hpk
      rw [hrun] at hx
      exact AuthService.mem_saveUserVerified hx hpk

/-- User for the C1 witness. -/
def uC1w : UserRec :=
  { pk := 4, uuid := "u-c1w", email := "c1w@x.com", password := bcryptHash "pw",
    full_name := "C One W", email_verified_at := none }

/-- Matching AVAILABLE EMAIL_VERIFICATION OTP of `uC1w`. -/
def oC1w : OTPRec :=
  { pk := 5, user_id := 4, key := "22222222", type := "EMAIL_VERIFICATION",
    status := "AVAILABLE", expired_at := 600000 }

/-- Concrete store for the C1 witness. -/
def stC1w : DBState :=
  { users := [uC1w], sessions := [], otps := [oC1w], roles := [], usersRoles := [], nextPk := 6 }

/-- Witness for C1's amended theorem on a matching unexpired OTP. -/
theorem verifyEmail_amended_witness :
    (AuthService.verifyEmail stC1w "u-c1w" "22222222" 500).1 = .ok none
    ∧ (∀ x ∈ (AuthService.verifyEmail stC1w "u-c1w" "22222222" 500).2.otps,
        x.pk = oC1w.pk → x.status = "USED")
    ∧ (∀ x ∈ (AuthService.verifyEmail stC1w "u-c1w" "22222222" 500).2.users,
        x.pk = uC1w.pk → x.email_verified_at = some 500) :=
  (verifyEmail_amended stC1w "u-c1w" "22222222" 500 uC1w (by decide)).2 oC1w
    (by decide) (by decide)

/-! ## C9 — email_verified_at is not write-once -/

/-- User for the C9 counterexample, already verified at time 100. -/
def uC9 : UserRec :=
  { pk := 1, uuid := "u-c9", email := "c9@x.com", password := bcryptHash "pw",
    full_name := "C Nine", email_verified_at := some 100 }

/-- A second still-AVAILABLE OTP of `uC9` (left over from a resend issued
before the first verification). -/
def oC9 : OTPRec :=
  { pk := 2, user_id := 1, key := "87654321", type := "EMAIL_VERIFICATION",
    status := "AVAILABLE", expired_at := 600000 }

/-- Concrete store for C9. -/
def stC9 : DBState :=
  { users := [uC9], sessions := [], otps := [oC9], roles := [], usersRoles := [], nextPk := 3 }

/-- C9 counterexample: the user is already verified at 100, yet a second
verifyEmail with another valid OTP at time 200 changes `email_verified_at`
to 200. -/
theorem verified_at_overwritten_counterexample :
    uC9.email_verified_at = some 100
    ∧ (AuthService.verifyEmail stC9 "u-c9" "87654321" 200).2.users.map
        (fun x => x.email_verified_at) = [some 200] := by
  refine ⟨by decide, by decide⟩

/-- C9 (amended): every successful verifyEmail sets the user's
`email_verified_at` to the current time, whether or not it was set before —
it is set on each success (never cleared), not at most once. -/
theorem verifyEmail_overwrites_verified_at (st : DBState) (user_uuid code : String)
    (now : Nat) (u : UserRec) (r : Option String)
    (hu : st.users.find? (fun x => x.uuid == user_uuid) = some u)
    (hok : (AuthService.verifyEmail st user_uuid code now).1 = .ok r) :
    ∀ x ∈ (AuthService.verifyEmail st user_uuid code now).2.users,
      x.pk = u.pk → x.email_verified_at = some now := by
  intro x hx hpk
  unfold AuthService.verifyEmail at hok hx
  rw [hu] at hok hx
  simp only at hok hx
  rcases hf : OTPService.findOTP st (AuthService.selectPkOnly u).pk code "EMAIL_VERIFICATION" now
    with ⟨res, st'⟩
  rw [hf] at hok hx
  cases res with
  | error e => simp at hok
  | ok b =>
    simp only at hx
    exact AuthService.mem_saveUserVerified hx hpk

/-- The `uC9` row as it stands after the second verification. -/
def uC9after : UserRec :=
  { pk := 1, uuid := "u-c9", email := "c9@x.com", password := bcryptHash "pw",
    full_name := "C Nine", email_verified_at := some 200 }

/-- Witness for C9's amended theorem at the already-verified store: the row
the second verification leaves behind carries the later timestamp. -/
theorem verifyEmail_overwrites_verified_at_witness :
    uC9after.email_verified_at = some 200 :=
  verifyEmail_overwrites_verified_at stC9 "u-c9" "87654321" 200 uC9 none
    (by decide) (by decide) uC9after (by decide) (by decide)
